import Mathlib

/-!
# keydotco/parse: request variants, sessions and authentication flows

A shallow embedding of `src/session.go` and `src/function.go`.

* Go strings and byte slices are Lean `String`s.
* A Go function returning `(T, error)` returns a pair whose second component
  is `Option GoError` (`none` is the nil error).
* Code that is called by the two files but lives elsewhere (the transport
  `doRequest`, `populateValue`, `handleResponse`, `getClassName`, the query and
  update builders, `create`, `_delete`) and the pieces of the Go standard
  library that are used (`json.Unmarshal`, string quoting of `json.Marshal`,
  `path.Clean`, `url.Values.Encode`, `url.URL.String`) are fields of
  `Collaborators`; every theorem quantifies over them.
* Side effects are made explicit by a trace: every call of a stateful
  collaborator appends one `Event`, and a collaborator's answer may depend on
  the whole history of calls before it.
-/

namespace Parse

/-! ## Data model -/

/-- A Go `error` value built by `errors.New` (or returned by a collaborator). -/
structure GoError where
  msg : String
deriving DecidableEq, Repr

/-- Go `errors.New`. -/
def errorsNew (msg : String) : GoError := { msg := msg }

/-- A dynamic value held in an `interface{}` that carries data: what
`json.Unmarshal` produces for a generic destination, and what a `Params`
mapping holds. Numbers are kept as their literal text. `unsupported` is a Go
value with no JSON encoding (a channel, a function). -/
inductive Data where
  | null
  | bool (b : Bool)
  | number (lit : String)
  | string (s : String)
  | array (elems : List Data)
  | object (fields : List (String × Data))
  | unsupported (what : String)
deriving Repr

/-- An `interface{}` passed as a destination (`u`, `resp`, `v`, `dst`), seen the
way `reflect.ValueOf` sees it. `newUser` is the freshly allocated `&User{}`. -/
inductive Iface where
  | nilInterface
  | nonPointer (typ : String)
  | nilPointer (typ : String)
  | pointer (typ : String) (addr : Nat)
  | newUser
deriving DecidableEq, Repr

/-- Whether `reflect.ValueOf(v).Kind() == reflect.Ptr`. -/
def Iface.kindIsPtr : Iface → Bool
  | .nilPointer _ => true
  | .pointer _ _ => true
  | .newUser => true
  | _ => false

/-- Whether `reflect.ValueOf(v).IsNil()` for a value of pointer kind. -/
def Iface.isNil : Iface → Bool
  | .nilPointer _ => true
  | _ => false

/-- Modelled from the spec: the client configuration (scheme, host, API
version string, hosted-mode flag, mount-point path); the type `ParseClient`
and its method `isHosted` are not in the source files. -/
structure ParseClient where
  parseScheme : String
  parseHost : String
  version : String
  parseMountPoint : String
  hosted : Bool
deriving DecidableEq, Repr

/-- The client method `isHosted()`. -/
def ParseClient.isHosted (client : ParseClient) : Bool := client.hosted

/-- Modelled from the spec: the third-party auth payload; the declaration of
`FacebookAuthData` is not in the source files. -/
structure FacebookAuthData where
  payload : String
deriving DecidableEq, Repr

/-- The type `AuthData`, used as `AuthData{Facebook: authData}`; its
declaration is not in the source files. -/
structure AuthData where
  Facebook : Option FacebookAuthData
deriving DecidableEq, Repr

/-- The struct `sessionT`. `client` is a `*ParseClient`, `none` is the nil pointer. -/
structure sessionT where
  client : Option ParseClient
  user : Iface
  sessionToken : String
deriving DecidableEq, Repr

/-- The struct `loginRequestT`; `s` and `authdata` are pointers, `none` is nil. -/
structure loginRequestT where
  username : String
  password : String
  s : Option sessionT
  authdata : Option AuthData
deriving DecidableEq, Repr

/-- The type `Params map[string]interface{}`: `none` is the nil map, `some m`
a non-nil map with the entries `m`. -/
abbrev Params := Option (List (String × Data))

/-- The struct `callFnT`. -/
structure callFnT where
  name : String
  params : Params
  currentSession : Option sessionT
deriving Repr

/-- The request variants the two source files pass to `doRequest`. -/
inductive requestT where
  | login (r : loginRequestT)
  | callFn (c : callFnT)
deriving Repr

/-- Modelled from the spec: a query builder with the session bound into it;
only the field `currentSession` of `queryT` is visible in the source. -/
structure queryT where
  id : Nat
  currentSession : Option sessionT
deriving DecidableEq, Repr

/-- Modelled from the spec: an update builder with the session bound into it;
only the field `currentSession` of `updateT` is visible in the source. -/
structure updateT where
  id : Nat
  currentSession : Option sessionT
deriving DecidableEq, Repr

/-- A value of the interface `Query`: a `*queryT` or some other implementation. -/
inductive Query where
  | queryT (q : queryT)
  | other (id : Nat)
deriving DecidableEq, Repr

/-- A value of the interface `Update`: an `*updateT` or some other implementation. -/
inductive Update where
  | updateT (u : updateT)
  | other (id : Nat)
deriving DecidableEq, Repr

/-- The struct `url.URL`, restricted to the fields the code sets. -/
structure URL where
  Scheme : String
  Host : String
  Path : String
  RawQuery : String
deriving DecidableEq, Repr

/-- One call of a stateful collaborator, with its arguments. -/
inductive Event where
  | doRequest (client : ParseClient) (r : requestT)
  | populateValue (dst : Iface) (data : Data)
  | handleResponse (body : String) (dst : Iface)
  | NewQuery (v : Iface) (client : Option ParseClient)
  | NewUpdate (v : Iface) (client : Option ParseClient)
  | create (client : Option ParseClient) (v : Iface) (useMasterKey : Bool) (s : Option sessionT)
  | delete (client : Option ParseClient) (v : Iface) (useMasterKey : Bool) (s : Option sessionT)
deriving Repr

/-- The history of collaborator calls, oldest first. -/
abbrev Trace := List Event

/-- Code of the repository outside the two source files, and the parts of the
Go standard library the two files call. A collaborator that is handed a
session or a request reads it and returns no new value for it (the spec:
derived operations read the session and do not write back to it). -/
structure Collaborators where
  /-- The method `client.doRequest(r)`. -/
  doRequest : ParseClient → requestT → Trace → String × Option GoError
  /-- The function `populateValue(dst, data)`. -/
  populateValue : Iface → Data → Trace → Option GoError
  /-- The function `handleResponse(body, dst)`. -/
  handleResponse : String → Iface → Trace → Option GoError
  /-- The function `getClassName(v)`. -/
  getClassName : Iface → String
  /-- The package-level `NewQuery(v, client)`. -/
  NewQuery : Iface → Option ParseClient → Trace → Option Query × Option GoError
  /-- The package-level `NewUpdate(v, client)`. -/
  NewUpdate : Iface → Option ParseClient → Trace → Option Update × Option GoError
  /-- The method `client.create(v, useMasterKey, session)`. -/
  create : Option ParseClient → Iface → Bool → Option sessionT → Trace → Option GoError
  /-- The method `client._delete(v, useMasterKey, session)`. -/
  delete : Option ParseClient → Iface → Bool → Option sessionT → Trace → Option GoError
  /-- Decoding `json.Unmarshal(body, &data)` with `data` a `map[string]interface{}`. -/
  unmarshalMap : String → Except GoError (List (String × Data))
  /-- Decoding `json.Unmarshal(b, &r)` with `r` a `fnRespT`: the field `Result`. -/
  unmarshalFnResp : String → Except GoError Data
  /-- Encoding of one `interface{}` value by `json.Marshal`. -/
  marshalValue : Data → Except GoError String
  /-- Encoding of one map key by `json.Marshal` (a quoted JSON string). -/
  marshalKey : String → String
  /-- Encoding `json.Marshal(map[string]interface{}{"authData": authdata})`. -/
  marshalAuthData : AuthData → String × Option GoError
  /-- The function `path.Clean`. -/
  pathClean : String → String
  /-- The method `url.Values.Encode` on a map given by its entries. -/
  valuesEncode : List (String × List String) → String
  /-- The method `url.URL.String`. -/
  urlString : URL → String
  /-- In `return st.(string), populateValue(dst, data)` Go leaves the order of
  the type assertion and the call open; `true` when the assertion comes first. -/
  assertBeforeCall : Bool

/-- What a Go call does: return a value, or abort with a run-time panic. -/
inductive Outcome (α : Type) where
  | ret (a : α)
  | panic (msg : String)
deriving Repr

/-! ## Standard-library functions with a fixed shape -/

/-- Go `path.Join`: the elements from the first non-empty one on are joined
with slashes and the result is cleaned; the empty string when every element
is empty. -/
def pathJoin (clean : String → String) (elem : List String) : String :=
  match elem.dropWhile (fun e => e == "") with
  | [] => ""
  | es => clean ("/".intercalate es)

/-- The entries of a map in the order `json.Marshal` writes them: sorted by
key, keys compared character by character. -/
def sortedEntries (m : List (String × Data)) : List (String × Data) :=
  m.insertionSort (fun a b => ¬ b.1.data < a.1.data)

/-- Go `json.Marshal` on a `Params` value: the nil map encodes as `null`, a
non-nil map as an object of its entries sorted by key; an entry whose value
has no encoding makes the whole call fail with no bytes. -/
def jsonMarshalParams (env : Collaborators) : Params → String × Option GoError
  | none => ("null", none)
  | some m =>
    match (sortedEntries m).mapM
        (fun kv => (env.marshalValue kv.2).map (fun e => env.marshalKey kv.1 ++ ":" ++ e)) with
    | .error err => ("", some err)
    | .ok parts => ("\x7b" ++ ",".intercalate parts ++ "\x7d", none)

/-! ## `session.go` -/

/-- The function `validateUser`. -/
def validateUser (env : Collaborators) (u : Iface) : Option GoError :=
  if !u.kindIsPtr || u.isNil then
    some (errorsNew "u must be a non-nil pointer")
  else if env.getClassName u != "_User" then
    some (errorsNew "u must embed parse.User or implement a ClassName function that returns \"_User\"")
  else
    none

/-- The function `handleLoginResponse`. The single-value type assertion
`st.(string)` panics when the entry is not a string. -/
def handleLoginResponse (env : Collaborators) (body : String) (dst : Iface) (t : Trace) :
    Outcome (String × Option GoError) × Trace :=
  match env.unmarshalMap body with
  | .error err => (.ret ("", some err), t)
  | .ok data =>
    match data.lookup "sessionToken" with
    | none => (.ret ("", some (errorsNew "response did not contain sessionToken")), t)
    | some (.string st) =>
      (.ret (st, env.populateValue dst (.object data) t), t ++ [.populateValue dst (.object data)])
    | some _ =>
      if env.assertBeforeCall then
        (.panic "interface conversion: interface \x7b\x7d is not string", t)
      else
        (.panic "interface conversion: interface \x7b\x7d is not string",
          t ++ [.populateValue dst (.object data)])

/-- The part of `Login` and `LoginFacebook` after the user value is fixed:
build the session, dispatch the request, handle the response. -/
def loginWith (env : Collaborators) (client : ParseClient) (r : loginRequestT) (user : Iface)
    (t : Trace) : Outcome (Option sessionT × Option GoError) × Trace :=
  let s : sessionT := { client := none, user := user, sessionToken := "" }
  match env.doRequest client (.login r) t with
  | (_, some err) => (.ret (none, some err), t ++ [.doRequest client (.login r)])
  | (b, none) =>
    match handleLoginResponse env b s.user (t ++ [.doRequest client (.login r)]) with
    | (.panic msg, t2) => (.panic msg, t2)
    | (.ret (_, some err), t2) => (.ret (none, some err), t2)
    | (.ret (st, none), t2) => (.ret (some { s with sessionToken := st }, none), t2)

/-- The request `&loginRequestT{username: username, password: password}`. -/
def passwordRequest (username password : String) : loginRequestT :=
  { username := username, password := password, s := none, authdata := none }

/-- The request `&loginRequestT{authdata: &AuthData{Facebook: authData}}`. -/
def facebookRequest (authData : Option FacebookAuthData) : loginRequestT :=
  { username := "", password := "", s := none, authdata := some { Facebook := authData } }

/-- The request `&loginRequestT{s: &sessionT{sessionToken: st, user: user}}`. -/
def becomeRequest (st : String) (user : Iface) : loginRequestT :=
  { username := "", password := "",
    s := some { client := none, user := user, sessionToken := st }, authdata := none }

/-- The method `ParseClient.Login`. -/
def ParseClient.Login (env : Collaborators) (client : ParseClient) (username password : String)
    (u : Iface) (t : Trace) : Outcome (Option sessionT × Option GoError) × Trace :=
  if u = .nilInterface then
    loginWith env client (passwordRequest username password) .newUser t
  else
    match validateUser env u with
    | some err => (.ret (none, some err), t)
    | none => loginWith env client (passwordRequest username password) u t

/-- The method `ParseClient.LoginFacebook`. -/
def ParseClient.LoginFacebook (env : Collaborators) (client : ParseClient)
    (authData : Option FacebookAuthData) (u : Iface) (t : Trace) :
    Outcome (Option sessionT × Option GoError) × Trace :=
  if u = .nilInterface then
    loginWith env client (facebookRequest authData) .newUser t
  else
    match validateUser env u with
    | some err => (.ret (none, some err), t)
    | none => loginWith env client (facebookRequest authData) u t

/-- The part of `Become` after the user value is fixed. -/
def becomeWith (env : Collaborators) (client : ParseClient) (st : String) (user : Iface)
    (t : Trace) : (Option sessionT × Option GoError) × Trace :=
  let r := becomeRequest st user
  match env.doRequest client (.login r) t with
  | (_, some err) => ((none, some err), t ++ [.doRequest client (.login r)])
  | (b, none) =>
    match env.handleResponse b user (t ++ [.doRequest client (.login r)]) with
    | some err =>
      ((none, some err), t ++ [.doRequest client (.login r), .handleResponse b user])
    | none => ((r.s, none), t ++ [.doRequest client (.login r), .handleResponse b user])

/-- The method `ParseClient.Become`. -/
def ParseClient.Become (env : Collaborators) (client : ParseClient) (st : String) (u : Iface)
    (t : Trace) : (Option sessionT × Option GoError) × Trace :=
  if u = .nilInterface then
    becomeWith env client st .newUser t
  else
    match validateUser env u with
    | some err => ((none, some err), t)
    | none => becomeWith env client st u t

/-- The method `sessionT.User`. -/
def sessionT.User (s : sessionT) : Iface := s.user

/-- The method `sessionT.NewQuery`. The components are what the method
returns, the value of `*s` when it returns, and the trace: the body assigns
to the builder's field and to no field of `s`. -/
def sessionT.NewQuery (env : Collaborators) (s : sessionT) (v : Iface) (t : Trace) :
    (Option Query × Option GoError) × sessionT × Trace :=
  match env.NewQuery v s.client t with
  | (some (.queryT qt), none) =>
    ((some (.queryT { qt with currentSession := some s }), none), s, t ++ [.NewQuery v s.client])
  | (q, err) => ((q, err), s, t ++ [.NewQuery v s.client])

/-- The method `sessionT.NewUpdate`, with the value of `*s` when it returns. -/
def sessionT.NewUpdate (env : Collaborators) (s : sessionT) (v : Iface) (t : Trace) :
    (Option Update × Option GoError) × sessionT × Trace :=
  match env.NewUpdate v s.client t with
  | (some (.updateT ut), none) =>
    ((some (.updateT { ut with currentSession := some s }), none), s,
      t ++ [.NewUpdate v s.client])
  | (u, err) => ((u, err), s, t ++ [.NewUpdate v s.client])

/-- The method `sessionT.Create`, with the value of `*s` when it returns. -/
def sessionT.Create (env : Collaborators) (s : sessionT) (v : Iface) (t : Trace) :
    Option GoError × sessionT × Trace :=
  (env.create s.client v false (some s) t, s, t ++ [.create s.client v false (some s)])

/-- The method `sessionT.Delete`, with the value of `*s` when it returns. -/
def sessionT.Delete (env : Collaborators) (s : sessionT) (v : Iface) (t : Trace) :
    Option GoError × sessionT × Trace :=
  (env.delete s.client v false (some s) t, s, t ++ [.delete s.client v false (some s)])

/-- The method `loginRequestT.method`. -/
def loginRequestT.method (s : loginRequestT) : String :=
  if s.authdata.isSome then "POST" else "GET"

/-- The value of the local `u` of `loginRequestT.endpoint` when `u.String()` is called. -/
def loginRequestT.endpointURL (s : loginRequestT) (env : Collaborators) (client : ParseClient) :
    URL :=
  let u : URL := { Scheme := client.parseScheme, Host := client.parseHost, Path := "", RawQuery := "" }
  let u : URL :=
    if !client.isHosted then
      if s.s.isSome then
        { u with Path := pathJoin env.pathClean [client.version, "users/me"] }
      else if s.authdata.isSome then
        { u with Path := pathJoin env.pathClean [client.version, "users"] }
      else
        { u with Path := pathJoin env.pathClean [client.version, "login"] }
    else
      if s.s.isSome then
        { u with Path := pathJoin env.pathClean [client.parseMountPoint, "users/me"] }
      else if s.authdata.isSome then
        { u with Path := pathJoin env.pathClean [client.parseMountPoint, "users"] }
      else
        { u with Path := pathJoin env.pathClean [client.parseMountPoint, "login"] }
  if s.username != "" && s.password != "" then
    { u with RawQuery := env.valuesEncode [("username", [s.username]), ("password", [s.password])] }
  else
    u

/-- The method `loginRequestT.endpoint`. -/
def loginRequestT.endpoint (s : loginRequestT) (env : Collaborators) (client : ParseClient) :
    String × Option GoError :=
  (env.urlString (s.endpointURL env client), none)

/-- The method `loginRequestT.body`. -/
def loginRequestT.body (s : loginRequestT) (env : Collaborators) : String × Option GoError :=
  match s.authdata with
  | some a => env.marshalAuthData a
  | none => ("", none)

/-- The method `loginRequestT.useMasterKey`. -/
def loginRequestT.useMasterKey (_s : loginRequestT) : Bool := false

/-- The method `loginRequestT.session`. -/
def loginRequestT.session (s : loginRequestT) : Option sessionT := s.s

/-- The method `loginRequestT.contentType`. -/
def loginRequestT.contentType (_s : loginRequestT) : String := "application/x-www-form-urlencoded"

/-! ## `function.go` -/

/-- The method `callFnT.method`. -/
def callFnT.method (_c : callFnT) : String := "POST"

/-- The value of the local `u` of `callFnT.endpoint` when `u.String()` is called. -/
def callFnT.endpointURL (c : callFnT) (env : Collaborators) (client : ParseClient) : URL :=
  let u : URL := { Scheme := "", Host := "", Path := "", RawQuery := "" }
  let u : URL :=
    if client.isHosted then
      { u with Path := pathJoin env.pathClean [client.parseMountPoint, "functions", c.name] }
    else
      { u with Path := pathJoin env.pathClean [client.version, "functions", c.name] }
  let u : URL := { u with Scheme := client.parseScheme }
  { u with Host := client.parseHost }

/-- The method `callFnT.endpoint`. -/
def callFnT.endpoint (c : callFnT) (env : Collaborators) (client : ParseClient) :
    String × Option GoError :=
  (env.urlString (c.endpointURL env client), none)

/-- The method `callFnT.body`. -/
def callFnT.body (c : callFnT) (env : Collaborators) : String × Option GoError :=
  jsonMarshalParams env c.params

/-- The method `callFnT.useMasterKey`. -/
def callFnT.useMasterKey (_c : callFnT) : Bool := false

/-- The method `callFnT.session`. -/
def callFnT.session (c : callFnT) : Option sessionT := c.currentSession

/-- The method `callFnT.contentType`. -/
def callFnT.contentType (_c : callFnT) : String := "application/json"

/-- The value `cr` that `callFn` builds, after the nil mapping is replaced by `Params{}`. -/
def callFnRequest (name : String) (params : Params) (currentSession : Option sessionT) : callFnT :=
  let params : Params :=
    match params with
    | none => some []
    | some m => some m
  { name := name, params := params, currentSession := currentSession }

/-- The function `callFn`. -/
def callFn (env : Collaborators) (client : ParseClient) (name : String) (params : Params)
    (resp : Iface) (currentSession : Option sessionT) (t : Trace) : Option GoError × Trace :=
  if !resp.kindIsPtr || resp.isNil then
    (some (errorsNew "resp must be a non-nil pointer"), t)
  else
    let cr := callFnRequest name params currentSession
    match env.doRequest client (.callFn cr) t with
    | (_, some err) => (some err, t ++ [.doRequest client (.callFn cr)])
    | (b, none) =>
      match env.unmarshalFnResp b with
      | .error err => (some err, t ++ [.doRequest client (.callFn cr)])
      | .ok result =>
        (env.populateValue resp result (t ++ [.doRequest client (.callFn cr)]),
          t ++ [.doRequest client (.callFn cr), .populateValue resp result])

/-- The package-level function `CallFunction`. -/
def CallFunction (env : Collaborators) (client : ParseClient) (name : String) (params : Params)
    (resp : Iface) (t : Trace) : Option GoError × Trace :=
  callFn env client name params resp none t

/-- The method `sessionT.CallFunction`, with the value of `*s` when it returns. -/
def sessionT.CallFunction (env : Collaborators) (s : sessionT) (client : ParseClient)
    (name : String) (params : Params) (resp : Iface) (t : Trace) :
    Option GoError × sessionT × Trace :=
  ((callFn env client name params resp (some s) t).1, s,
    (callFn env client name params resp (some s) t).2)

/-! ## The request contract, dispatched over the variants -/

/-- The method `method()` of a request. -/
def requestT.method : requestT → String
  | .login r => r.method
  | .callFn c => c.method

/-- The method `endpoint(client)` of a request. -/
def requestT.endpoint (env : Collaborators) (client : ParseClient) : requestT → String × Option GoError
  | .login r => r.endpoint env client
  | .callFn c => c.endpoint env client

/-- The URL a request's `endpoint(client)` renders. -/
def requestT.endpointURL (env : Collaborators) (client : ParseClient) : requestT → URL
  | .login r => r.endpointURL env client
  | .callFn c => c.endpointURL env client

/-- The method `body()` of a request. -/
def requestT.body (env : Collaborators) : requestT → String × Option GoError
  | .login r => r.body env
  | .callFn c => c.body env

/-- The method `useMasterKey()` of a request. -/
def requestT.useMasterKey : requestT → Bool
  | .login r => r.useMasterKey
  | .callFn c => c.useMasterKey

/-- The method `session()` of a request. -/
def requestT.session : requestT → Option sessionT
  | .login r => r.session
  | .callFn c => c.session

/-- The method `contentType()` of a request. -/
def requestT.contentType : requestT → String
  | .login r => r.contentType
  | .callFn c => c.contentType

/-! ## The flows as one family -/

/-- The user value an authentication flow works on: the fresh built-in user
when the caller passes the nil interface, the caller's value otherwise. -/
def destinationUser (u : Iface) : Iface :=
  if u = .nilInterface then .newUser else u

/-- The two flows that read the token from the response. -/
inductive LoginFlow where
  | password (username password : String)
  | facebook (authData : Option FacebookAuthData)
deriving Repr

/-- The request a login flow hands to `doRequest`. -/
def LoginFlow.request : LoginFlow → loginRequestT
  | .password name pass => passwordRequest name pass
  | .facebook authData => facebookRequest authData

/-- Calling `Login` or `LoginFacebook`. -/
def LoginFlow.run (env : Collaborators) (client : ParseClient) :
    LoginFlow → Iface → Trace → Outcome (Option sessionT × Option GoError) × Trace
  | .password name pass, u, t => ParseClient.Login env client name pass u t
  | .facebook authData, u, t => ParseClient.LoginFacebook env client authData u t

/-- The three authentication flows. -/
inductive AuthFlow where
  | login (f : LoginFlow)
  | become (st : String)
deriving Repr

/-- The request an authentication flow hands to `doRequest` for the user value `user`. -/
def AuthFlow.request : AuthFlow → Iface → loginRequestT
  | .login f, _ => f.request
  | .become st, user => becomeRequest st user

/-- Calling `Login`, `LoginFacebook` or `Become`. -/
def AuthFlow.run (env : Collaborators) (client : ParseClient) :
    AuthFlow → Iface → Trace → Outcome (Option sessionT × Option GoError) × Trace
  | .login f, u, t => LoginFlow.run env client f u t
  | .become st, u, t =>
    (.ret (ParseClient.Become env client st u t).1, (ParseClient.Become env client st u t).2)

/-- The root of every endpoint path: the mount point in hosted mode, the
version segment otherwise. -/
def ParseClient.pathRoot (client : ParseClient) : String :=
  if client.isHosted then client.parseMountPoint else client.version

/-- The session bound into a builder: the field `currentSession` of a
`*queryT`; a builder of another type has no field the source binds into. -/
def Query.currentSession : Query → Option sessionT
  | .queryT q => q.currentSession
  | .other _ => none

/-- The session bound into a builder: the field `currentSession` of an
`*updateT`; a builder of another type has no field the source binds into. -/
def Update.currentSession : Update → Option sessionT
  | .updateT u => u.currentSession
  | .other _ => none

/-! ## A sample server -/

/-- A decoder for the function-call responses used in the examples. -/
def sampleUnmarshalFnResp (body : String) : Except GoError Data :=
  if body = "\x7b\"result\":\"world\"\x7d" then
    .ok (.string "world")
  else if body = "\x7b\"result\":null\x7d" then
    .ok .null
  else
    .error (errorsNew "unexpected end of JSON input")


/-- A decoder for the response bodies used in the examples. -/
def sampleUnmarshalMap (body : String) : Except GoError (List (String × Data)) :=
  if body = "\x7b\"sessionToken\":\"tok123\",\"username\":\"alice\",\"objectId\":\"u1\"\x7d" then
    .ok [("sessionToken", .string "tok123"), ("username", .string "alice"),
      ("objectId", .string "u1")]
  else if body = "\x7b\"username\":\"alice\"\x7d" then
    .ok [("username", .string "alice")]
  else if body = "\x7b\"sessionToken\":123\x7d" then
    .ok [("sessionToken", .number "123")]
  else if body = "\x7b\"sessionToken\":null\x7d" then
    .ok [("sessionToken", .null)]
  else if body = "\x7b\"sessionToken\":\"other\",\"username\":\"alice\"\x7d" then
    .ok [("sessionToken", .string "other"), ("username", .string "alice")]
  else
    .error (errorsNew "invalid character")

/-- Collaborators for the examples: the server answers every request with
`reply`, population always succeeds, and a pointer to a `parse.User` (or the
built-in user) has the class name `_User`. -/
def sampleServer (reply : String) (assertFirst : Bool) : Collaborators where
  doRequest := fun _ _ _ => (reply, none)
  populateValue := fun _ _ _ => none
  handleResponse := fun _ _ _ => none
  getClassName := fun u =>
    match u with
    | .newUser => "_User"
    | .pointer typ _ => if typ = "parse.User" then "_User" else typ
    | _ => ""
  NewQuery := fun _ _ _ => (some (.queryT { id := 0, currentSession := none }), none)
  NewUpdate := fun _ _ _ => (some (.updateT { id := 0, currentSession := none }), none)
  create := fun _ _ _ _ _ => none
  delete := fun _ _ _ _ _ => none
  unmarshalMap := sampleUnmarshalMap
  unmarshalFnResp := sampleUnmarshalFnResp
  marshalValue := fun d =>
    match d with
    | .string v => .ok ("\"" ++ v ++ "\"")
    | .number lit => .ok lit
    | .unsupported what => .error (errorsNew ("json: unsupported type: " ++ what))
    | _ => .ok "null"
  marshalKey := fun k => "\"" ++ k ++ "\""
  marshalAuthData := fun _ => ("\x7b\"authData\":\x7b\x7d\x7d", none)
  pathClean := fun p => p
  valuesEncode := fun kvs =>
    "&".intercalate (kvs.map (fun kv => kv.1 ++ "=" ++ ",".intercalate kv.2))
  urlString := fun u =>
    u.Scheme ++ "://" ++ u.Host ++ "/" ++ u.Path ++
      (if u.RawQuery = "" then "" else "?" ++ u.RawQuery)
  assertBeforeCall := assertFirst

/-- The sample server with builders of a type other than `*queryT` and
`*updateT` coming back from `NewQuery` and `NewUpdate`. -/
def otherBuilderServer : Collaborators :=
  { sampleServer "" true with
    NewQuery := fun _ _ _ => (some (.other 5), none)
    NewUpdate := fun _ _ _ => (some (.other 6), none) }

/-- A client configuration for the examples. -/
def sampleClient : ParseClient :=
  { parseScheme := "https", parseHost := "api.example.com", version := "1",
    parseMountPoint := "/parse", hosted := false }

/-! ## Shared lemmas -/

theorem destinationUser_nil : destinationUser .nilInterface = .newUser := rfl

theorem destinationUser_of_ne {u : Iface} (h : u ≠ .nilInterface) : destinationUser u = u := by
  simp [destinationUser, h]

/-- A login flow whose user value passes validation is `loginWith` on its request. -/
theorem loginFlow_run_of_valid (env : Collaborators) (client : ParseClient) (f : LoginFlow)
    (u : Iface) (t : Trace) (hu : u = .nilInterface ∨ validateUser env u = none) :
    LoginFlow.run env client f u t = loginWith env client f.request (destinationUser u) t := by
  by_cases hn : u = .nilInterface
  · subst hn
    cases f <;> simp [LoginFlow.run, LoginFlow.request, ParseClient.Login,
      ParseClient.LoginFacebook, destinationUser]
  · have hv : validateUser env u = none := by
      rcases hu with h | h
      · exact absurd h hn
      · exact h
    cases f <;> simp [LoginFlow.run, LoginFlow.request, ParseClient.Login,
      ParseClient.LoginFacebook, destinationUser, hn, hv]

/-- A login flow whose user value fails validation returns the validation
error and calls no collaborator. -/
theorem loginFlow_run_of_invalid (env : Collaborators) (client : ParseClient) (f : LoginFlow)
    (u : Iface) (t : Trace) (err : GoError) (hn : u ≠ .nilInterface)
    (hv : validateUser env u = some err) :
    LoginFlow.run env client f u t = (.ret (none, some err), t) := by
  cases f <;> simp [LoginFlow.run, ParseClient.Login, ParseClient.LoginFacebook, hn, hv]

/-- The login path on a response that carries a string token and populates. -/
theorem loginWith_of_token (env : Collaborators) (client : ParseClient) (r : loginRequestT)
    (user : Iface) (t : Trace) (body : String) (data : List (String × Data)) (st : String)
    (hreq : env.doRequest client (.login r) t = (body, none))
    (hdec : env.unmarshalMap body = .ok data)
    (htok : data.lookup "sessionToken" = some (.string st))
    (hpop : env.populateValue user (.object data) (t ++ [.doRequest client (.login r)]) = none) :
    loginWith env client r user t =
      (.ret (some { client := none, user := user, sessionToken := st }, none),
        t ++ [.doRequest client (.login r), .populateValue user (.object data)]) := by
  simp [loginWith, handleLoginResponse, hreq, hdec, htok, hpop]

/-- The response handler on a response without a token entry. -/
theorem handleLoginResponse_of_missing (env : Collaborators) (body : String) (dst : Iface)
    (t : Trace) (data : List (String × Data)) (hdec : env.unmarshalMap body = .ok data)
    (hmiss : data.lookup "sessionToken" = none) :
    handleLoginResponse env body dst t =
      (.ret ("", some (errorsNew "response did not contain sessionToken")), t) := by
  simp [handleLoginResponse, hdec, hmiss]

/-! ## Login responses -/

/-- C1: when the login response decodes to an object whose `sessionToken`
entry is the string `st` and population of the user succeeds, `Login` and
`LoginFacebook` return a session and no error, the session's token is `st`,
its `User()` is the destination user, and the one call of `populateValue`
was made on that user with the whole decoded mapping. -/
theorem login_returns_token_and_populates (env : Collaborators) (client : ParseClient)
    (f : LoginFlow) (u : Iface) (t : Trace) (body : String) (data : List (String × Data))
    (st : String)
    (hu : u = .nilInterface ∨ validateUser env u = none)
    (hreq : env.doRequest client (.login f.request) t = (body, none))
    (hdec : env.unmarshalMap body = .ok data)
    (htok : data.lookup "sessionToken" = some (.string st))
    (hpop : env.populateValue (destinationUser u) (.object data)
      (t ++ [.doRequest client (.login f.request)]) = none) :
    ∃ s : sessionT,
      LoginFlow.run env client f u t =
        (.ret (some s, none),
          t ++ [.doRequest client (.login f.request),
            .populateValue (destinationUser u) (.object data)]) ∧
      s.sessionToken = st ∧ s.User = destinationUser u := by
  refine ⟨{ client := none, user := destinationUser u, sessionToken := st }, ?_, rfl, rfl⟩
  rw [loginFlow_run_of_valid env client f u t hu]
  exact loginWith_of_token env client f.request (destinationUser u) t body data st hreq hdec
    htok hpop

theorem login_returns_token_and_populates_witness :
    ∃ s : sessionT,
      LoginFlow.run
          (sampleServer
            "\x7b\"sessionToken\":\"tok123\",\"username\":\"alice\",\"objectId\":\"u1\"\x7d" true)
          sampleClient (.password "alice" "secret") .nilInterface [] =
        (.ret (some s, none),
          [] ++ [.doRequest sampleClient (.login (LoginFlow.password "alice" "secret").request),
            .populateValue (destinationUser .nilInterface)
              (.object [("sessionToken", .string "tok123"), ("username", .string "alice"),
                ("objectId", .string "u1")])]) ∧
      s.sessionToken = "tok123" ∧ s.User = destinationUser .nilInterface :=
  login_returns_token_and_populates
    (sampleServer
      "\x7b\"sessionToken\":\"tok123\",\"username\":\"alice\",\"objectId\":\"u1\"\x7d" true)
    sampleClient (.password "alice" "secret") .nilInterface []
    "\x7b\"sessionToken\":\"tok123\",\"username\":\"alice\",\"objectId\":\"u1\"\x7d"
    [("sessionToken", .string "tok123"), ("username", .string "alice"),
      ("objectId", .string "u1")]
    "tok123" (Or.inl rfl) rfl rfl rfl rfl

/-- C2: when the login response decodes to an object with no `sessionToken`
key, `handleLoginResponse` returns the error "response did not contain
sessionToken" with an empty token and calls nothing, and `Login` and
`LoginFacebook` return the nil session with that error; the only collaborator
call made is the dispatch, so the destination user is not populated. -/
theorem login_without_token_fails (env : Collaborators) (client : ParseClient)
    (f : LoginFlow) (u : Iface) (t : Trace) (body : String) (data : List (String × Data))
    (hu : u = .nilInterface ∨ validateUser env u = none)
    (hreq : env.doRequest client (.login f.request) t = (body, none))
    (hdec : env.unmarshalMap body = .ok data)
    (hmiss : data.lookup "sessionToken" = none) :
    (∀ (dst : Iface) (t0 : Trace),
      handleLoginResponse env body dst t0 =
        (.ret ("", some (errorsNew "response did not contain sessionToken")), t0)) ∧
    LoginFlow.run env client f u t =
      (.ret (none, some (errorsNew "response did not contain sessionToken")),
        t ++ [.doRequest client (.login f.request)]) := by
  refine ⟨fun dst t0 => handleLoginResponse_of_missing env body dst t0 data hdec hmiss, ?_⟩
  rw [loginFlow_run_of_valid env client f u t hu]
  simp [loginWith, hreq, handleLoginResponse_of_missing env body _ _ data hdec hmiss]

theorem login_without_token_fails_witness :
    (∀ (dst : Iface) (t0 : Trace),
      handleLoginResponse (sampleServer "\x7b\"username\":\"alice\"\x7d" true)
          "\x7b\"username\":\"alice\"\x7d" dst t0 =
        (.ret ("", some (errorsNew "response did not contain sessionToken")), t0)) ∧
    LoginFlow.run (sampleServer "\x7b\"username\":\"alice\"\x7d" true) sampleClient
        (.facebook none) (.pointer "parse.User" 1) [] =
      (.ret (none, some (errorsNew "response did not contain sessionToken")),
        [] ++ [.doRequest sampleClient (.login (LoginFlow.facebook none).request)]) :=
  login_without_token_fails (sampleServer "\x7b\"username\":\"alice\"\x7d" true) sampleClient
    (.facebook none) (.pointer "parse.User" 1) [] "\x7b\"username\":\"alice\"\x7d"
    [("username", .string "alice")] (Or.inr rfl) rfl rfl rfl

/-- The response handler on a response whose token entry is not a string:
the type assertion panics, in either evaluation order. -/
theorem handleLoginResponse_of_non_string (env : Collaborators) (body : String) (dst : Iface)
    (t : Trace) (data : List (String × Data)) (v : Data)
    (hdec : env.unmarshalMap body = .ok data)
    (hent : data.lookup "sessionToken" = some v)
    (hns : ∀ st : String, v ≠ .string st) :
    (handleLoginResponse env body dst t).1 =
      .panic "interface conversion: interface \x7b\x7d is not string" := by
  cases v with
  | string st => exact absurd rfl (hns st)
  | _ => cases hb : env.assertBeforeCall <;> simp [handleLoginResponse, hdec, hent, hb]

/-- C3: when the login response decodes to an object whose `sessionToken`
entry is present but not a string, the type assertion `st.(string)` panics,
whichever of the assertion and the call of `populateValue` comes first:
`handleLoginResponse` aborts instead of returning an error to its caller, and
`Login` and `LoginFacebook` abort with the same panic. -/
theorem login_non_string_token_panics (env : Collaborators) (client : ParseClient)
    (f : LoginFlow) (u : Iface) (t : Trace) (body : String) (data : List (String × Data))
    (v : Data)
    (hu : u = .nilInterface ∨ validateUser env u = none)
    (hreq : env.doRequest client (.login f.request) t = (body, none))
    (hdec : env.unmarshalMap body = .ok data)
    (hent : data.lookup "sessionToken" = some v)
    (hns : ∀ st : String, v ≠ .string st) :
    (∀ (dst : Iface) (t0 : Trace),
      (handleLoginResponse env body dst t0).1 =
        .panic "interface conversion: interface \x7b\x7d is not string") ∧
    (LoginFlow.run env client f u t).1 =
      .panic "interface conversion: interface \x7b\x7d is not string" := by
  refine ⟨fun dst t0 => handleLoginResponse_of_non_string env body dst t0 data v hdec hent hns, ?_⟩
  rw [loginFlow_run_of_valid env client f u t hu]
  have hp := handleLoginResponse_of_non_string env body (destinationUser u)
    (t ++ [.doRequest client (.login f.request)]) data v hdec hent hns
  simp only [loginWith, hreq]
  generalize handleLoginResponse env body (destinationUser u)
    (t ++ [.doRequest client (.login f.request)]) = res at hp
  obtain ⟨o, t2⟩ := res
  simp only at hp
  subst hp
  rfl

theorem login_non_string_token_panics_witness :
    (∀ (dst : Iface) (t0 : Trace),
      (handleLoginResponse (sampleServer "\x7b\"sessionToken\":123\x7d" true)
          "\x7b\"sessionToken\":123\x7d" dst t0).1 =
        .panic "interface conversion: interface \x7b\x7d is not string") ∧
    (LoginFlow.run (sampleServer "\x7b\"sessionToken\":123\x7d" true) sampleClient
        (.password "alice" "secret") .nilInterface []).1 =
      .panic "interface conversion: interface \x7b\x7d is not string" :=
  login_non_string_token_panics (sampleServer "\x7b\"sessionToken\":123\x7d" true) sampleClient
    (.password "alice" "secret") .nilInterface [] "\x7b\"sessionToken\":123\x7d"
    [("sessionToken", .number "123")] (.number "123") (Or.inl rfl) rfl rfl rfl
    (fun _ h => Data.noConfusion h)

/-! ## Token resumption -/

/-- What `Become` returns once the user value is fixed and no error comes back. -/
theorem becomeWith_of_success (env : Collaborators) (client : ParseClient) (st : String)
    (user : Iface) (t : Trace) (hok : (becomeWith env client st user t).1.2 = none) :
    (becomeWith env client st user t).1.1 = (becomeRequest st user).s ∧
    (becomeWith env client st user t).2 =
      t ++ [.doRequest client (.login (becomeRequest st user)),
        .handleResponse (env.doRequest client (.login (becomeRequest st user)) t).1 user] := by
  unfold becomeWith at hok ⊢
  rcases hreq : env.doRequest client (.login (becomeRequest st user)) t with ⟨b, e⟩
  cases e with
  | some err => simp [hreq] at hok
  | none =>
    simp only [hreq] at hok ⊢
    cases hres : env.handleResponse b user (t ++ [.doRequest client (.login (becomeRequest st user))]) with
    | some err => simp [hres] at hok
    | none => simp

/-- What `Become` is once the user value passes validation. -/
theorem Become_of_valid (env : Collaborators) (client : ParseClient) (st : String) (u : Iface)
    (t : Trace) (hu : u = .nilInterface ∨ validateUser env u = none) :
    ParseClient.Become env client st u t = becomeWith env client st (destinationUser u) t := by
  by_cases hn : u = .nilInterface
  · subst hn
    simp [ParseClient.Become, destinationUser]
  · have hv : validateUser env u = none := by
      rcases hu with h | h
      · exact absurd h hn
      · exact h
    simp [ParseClient.Become, destinationUser, hn, hv]

/-- What `Become` is when the user value fails validation. -/
theorem Become_of_invalid (env : Collaborators) (client : ParseClient) (st : String) (u : Iface)
    (t : Trace) (err : GoError) (hn : u ≠ .nilInterface) (hv : validateUser env u = some err) :
    ParseClient.Become env client st u t = ((none, some err), t) := by
  simp [ParseClient.Become, hn, hv]

/-- C4: whenever `Become(st, u)` returns without error, the session it
returns is the session bound to the request it dispatched (the request's
`session()`), that session's token is `st` and its user is the destination
user; the response body only reaches `handleResponse` together with the user
value, whatever attributes the body carries. -/
theorem become_returns_bound_stub (env : Collaborators) (client : ParseClient) (st : String)
    (u : Iface) (t : Trace) (hok : (ParseClient.Become env client st u t).1.2 = none) :
    (ParseClient.Become env client st u t).1.1 =
      (requestT.login (becomeRequest st (destinationUser u))).session ∧
    (∃ s : sessionT, (ParseClient.Become env client st u t).1.1 = some s ∧
      s.sessionToken = st ∧ s.User = destinationUser u) ∧
    (ParseClient.Become env client st u t).2 =
      t ++ [.doRequest client (.login (becomeRequest st (destinationUser u))),
        .handleResponse
          (env.doRequest client (.login (becomeRequest st (destinationUser u))) t).1
          (destinationUser u)] := by
  have hu : u = .nilInterface ∨ validateUser env u = none := by
    by_cases hn : u = .nilInterface
    · exact Or.inl hn
    · right
      cases hv : validateUser env u with
      | none => rfl
      | some err => simp [Become_of_invalid env client st u t err hn hv] at hok
  rw [Become_of_valid env client st u t hu] at hok ⊢
  obtain ⟨h1, h2⟩ := becomeWith_of_success env client st (destinationUser u) t hok
  refine ⟨h1, ⟨{ client := none, user := destinationUser u, sessionToken := st }, ?_, rfl, rfl⟩, h2⟩
  rw [h1]
  rfl

theorem become_returns_bound_stub_witness :
    (ParseClient.Become
        (sampleServer "\x7b\"sessionToken\":\"other\",\"username\":\"alice\"\x7d" true)
        sampleClient "tok123" .nilInterface []).1.1 =
      (requestT.login (becomeRequest "tok123" (destinationUser .nilInterface))).session ∧
    (∃ s : sessionT,
      (ParseClient.Become
        (sampleServer "\x7b\"sessionToken\":\"other\",\"username\":\"alice\"\x7d" true)
        sampleClient "tok123" .nilInterface []).1.1 = some s ∧
      s.sessionToken = "tok123" ∧ s.User = destinationUser .nilInterface) ∧
    (ParseClient.Become
        (sampleServer "\x7b\"sessionToken\":\"other\",\"username\":\"alice\"\x7d" true)
        sampleClient "tok123" .nilInterface []).2 =
      [] ++ [.doRequest sampleClient
          (.login (becomeRequest "tok123" (destinationUser .nilInterface))),
        .handleResponse
          ((sampleServer "\x7b\"sessionToken\":\"other\",\"username\":\"alice\"\x7d"
            true).doRequest sampleClient
            (.login (becomeRequest "tok123" (destinationUser .nilInterface))) []).1
          (destinationUser .nilInterface)] :=
  become_returns_bound_stub
    (sampleServer "\x7b\"sessionToken\":\"other\",\"username\":\"alice\"\x7d" true)
    sampleClient "tok123" .nilInterface [] rfl

/-! ## Destination validation -/

/-- The response handler only ever appends to the trace. -/
theorem handleLoginResponse_trace (env : Collaborators) (body : String) (dst : Iface)
    (t : Trace) : ∃ rest : Trace, (handleLoginResponse env body dst t).2 = t ++ rest := by
  unfold handleLoginResponse
  repeat' split
  all_goals first
    | exact ⟨[_], rfl⟩
    | exact ⟨[], (List.append_nil t).symm⟩

/-- The first collaborator call of the login path is the dispatch of its request. -/
theorem loginWith_trace (env : Collaborators) (client : ParseClient) (r : loginRequestT)
    (user : Iface) (t : Trace) :
    ∃ rest : Trace, (loginWith env client r user t).2 =
      t ++ .doRequest client (.login r) :: rest := by
  unfold loginWith
  rcases hreq : env.doRequest client (.login r) t with ⟨b, e⟩
  cases e with
  | some err => exact ⟨[], rfl⟩
  | none =>
    obtain ⟨rest, hrest⟩ :=
      handleLoginResponse_trace env b user (t ++ [.doRequest client (.login r)])
    simp only
    generalize handleLoginResponse env b user (t ++ [.doRequest client (.login r)]) = res
      at hrest
    obtain ⟨o, t2⟩ := res
    simp only at hrest
    subst hrest
    refine ⟨rest, ?_⟩
    rcases o with ⟨st, _ | err⟩ | msg <;> simp

/-- An authentication flow whose user value fails validation returns the
validation error and no session, and calls no collaborator. -/
theorem authFlow_run_of_invalid (env : Collaborators) (client : ParseClient) (flow : AuthFlow)
    (u : Iface) (t : Trace) (err : GoError) (hn : u ≠ .nilInterface)
    (hv : validateUser env u = some err) :
    AuthFlow.run env client flow u t = (.ret (none, some err), t) := by
  cases flow with
  | login f => exact loginFlow_run_of_invalid env client f u t err hn hv
  | become st => simp [AuthFlow.run, Become_of_invalid env client st u t err hn hv]

/-- An authentication flow called with the nil interface dispatches its
request for the fresh built-in user as its first collaborator call. -/
theorem authFlow_run_nil_dispatches (env : Collaborators) (client : ParseClient)
    (flow : AuthFlow) (t : Trace) :
    ∃ rest : Trace, (AuthFlow.run env client flow .nilInterface t).2 =
      t ++ .doRequest client (.login (flow.request .newUser)) :: rest := by
  cases flow with
  | login f =>
    simp only [AuthFlow.run, AuthFlow.request]
    rw [loginFlow_run_of_valid env client f .nilInterface t (Or.inl rfl)]
    exact loginWith_trace env client f.request _ t
  | become st =>
    simp only [AuthFlow.run, AuthFlow.request]
    rw [Become_of_valid env client st .nilInterface t (Or.inl rfl)]
    simp only [destinationUser_nil, becomeWith]
    rcases hreq : env.doRequest client (.login (becomeRequest st .newUser)) t with ⟨b, e⟩
    cases e with
    | some err => exact ⟨[], rfl⟩
    | none =>
      cases hres : env.handleResponse b .newUser
          (t ++ [.doRequest client (.login (becomeRequest st .newUser))]) with
      | some err => exact ⟨[.handleResponse b .newUser], by simp [hres]⟩
      | none => exact ⟨[.handleResponse b .newUser], by simp [hres]⟩

/-- C5: every destination that is not a pointer, and every nil pointer, of
whatever type (a user type included), makes `Login`, `LoginFacebook` and
`Become` return no session and the error "u must be a non-nil pointer", and
makes `callFn`, `CallFunction` and a session's `CallFunction` return "resp
must be a non-nil pointer" (for these the nil interface is rejected too); a
non-nil pointer whose class name is not `_User` makes the three flows return
no session and the class-name error. In all these cases the trace is
unchanged: no collaborator, in particular not `doRequest`, is called. With
the nil interface a flow goes on with the fresh built-in user and dispatches
its request. -/
theorem invalid_destination_fails_before_dispatch (env : Collaborators) (client : ParseClient)
    (flow : AuthFlow) (t : Trace) (typ : String) (ptyp : String) (addr : Nat) (name : String)
    (params : Params) (sess : Option sessionT) (s : sessionT) :
    AuthFlow.run env client flow (.nonPointer typ) t =
      (.ret (none, some (errorsNew "u must be a non-nil pointer")), t) ∧
    AuthFlow.run env client flow (.nilPointer typ) t =
      (.ret (none, some (errorsNew "u must be a non-nil pointer")), t) ∧
    (env.getClassName (.pointer ptyp addr) ≠ "_User" →
      AuthFlow.run env client flow (.pointer ptyp addr) t =
        (.ret (none, some (errorsNew
          "u must embed parse.User or implement a ClassName function that returns \"_User\"")),
          t)) ∧
    callFn env client name params .nilInterface sess t =
      (some (errorsNew "resp must be a non-nil pointer"), t) ∧
    callFn env client name params (.nonPointer typ) sess t =
      (some (errorsNew "resp must be a non-nil pointer"), t) ∧
    callFn env client name params (.nilPointer typ) sess t =
      (some (errorsNew "resp must be a non-nil pointer"), t) ∧
    (∀ resp : Iface, resp.kindIsPtr = false ∨ resp.isNil = true →
      CallFunction env client name params resp t =
        (some (errorsNew "resp must be a non-nil pointer"), t) ∧
      sessionT.CallFunction env s client name params resp t =
        (some (errorsNew "resp must be a non-nil pointer"), s, t)) ∧
    (∃ rest : Trace, (AuthFlow.run env client flow .nilInterface t).2 =
      t ++ .doRequest client (.login (flow.request .newUser)) :: rest) := by
  refine ⟨?_, ?_, ?_, ?_, ?_, ?_, ?_, authFlow_run_nil_dispatches env client flow t⟩
  · exact authFlow_run_of_invalid env client flow _ t _ (by simp)
      (by simp [validateUser, Iface.kindIsPtr])
  · exact authFlow_run_of_invalid env client flow _ t _ (by simp)
      (by simp [validateUser, Iface.kindIsPtr, Iface.isNil])
  · intro hcls
    exact authFlow_run_of_invalid env client flow _ t _ (by simp)
      (by simp [validateUser, Iface.kindIsPtr, Iface.isNil, hcls])
  · simp [callFn, Iface.kindIsPtr]
  · simp [callFn, Iface.kindIsPtr]
  · simp [callFn, Iface.kindIsPtr, Iface.isNil]
  · intro resp hresp
    rcases hresp with h | h <;> simp [CallFunction, sessionT.CallFunction, callFn, h]

theorem invalid_destination_fails_before_dispatch_witness :
    (sampleServer "" true).getClassName (.pointer "Widget" 7) ≠ "_User" ∧
    (sampleServer "" true).getClassName (.pointer "parse.User" 7) = "_User" ∧
    AuthFlow.run (sampleServer "" true) sampleClient (.become "tok123")
        (.nonPointer "parse.User") [] =
      (.ret (none, some (errorsNew "u must be a non-nil pointer")), []) ∧
    AuthFlow.run (sampleServer "" true) sampleClient (.become "tok123")
        (.nilPointer "parse.User") [] =
      (.ret (none, some (errorsNew "u must be a non-nil pointer")), []) ∧
    AuthFlow.run (sampleServer "" true) sampleClient (.become "tok123") (.pointer "Widget" 7)
        [] =
      (.ret (none, some (errorsNew
        "u must embed parse.User or implement a ClassName function that returns \"_User\"")),
        []) ∧
    callFn (sampleServer "" true) sampleClient "hello" none (.nilPointer "parse.User") none [] =
      (some (errorsNew "resp must be a non-nil pointer"), []) :=
  ⟨by decide, by decide,
    (invalid_destination_fails_before_dispatch (sampleServer "" true) sampleClient
      (.become "tok123") [] "parse.User" "Widget" 7 "hello" none none
      (sessionT.mk none .newUser "tok123")).1,
    (invalid_destination_fails_before_dispatch (sampleServer "" true) sampleClient
      (.become "tok123") [] "parse.User" "Widget" 7 "hello" none none
      (sessionT.mk none .newUser "tok123")).2.1,
    (invalid_destination_fails_before_dispatch (sampleServer "" true) sampleClient
      (.become "tok123") [] "parse.User" "Widget" 7 "hello" none none
      (sessionT.mk none .newUser "tok123")).2.2.1 (by decide),
    (invalid_destination_fails_before_dispatch (sampleServer "" true) sampleClient
      (.become "tok123") [] "parse.User" "Widget" 7 "hello" none none
      (sessionT.mk none .newUser "tok123")).2.2.2.2.2.1⟩

/-! ## The client of a session -/

/-- A session returned by the login path has the nil client and the given user. -/
theorem loginWith_session (env : Collaborators) (client : ParseClient) (r : loginRequestT)
    (user : Iface) (t tr : Trace) (s : sessionT)
    (h : loginWith env client r user t = (.ret (some s, none), tr)) :
    s.client = none ∧ s.user = user := by
  unfold loginWith at h
  split at h
  · simp at h
  · dsimp only at h
    split at h
    · simp at h
    · simp at h
    · simp only [Prod.mk.injEq, Outcome.ret.injEq, Option.some.injEq] at h
      obtain ⟨⟨hs, _⟩, _⟩ := h
      subst hs
      exact ⟨rfl, rfl⟩

/-- A session returned by the resumption path has the nil client, the given
user and the given token. -/
theorem becomeWith_session (env : Collaborators) (client : ParseClient) (st : String)
    (user : Iface) (t tr : Trace) (s : sessionT)
    (h : becomeWith env client st user t = ((some s, none), tr)) :
    s.client = none ∧ s.user = user ∧ s.sessionToken = st := by
  have hok : (becomeWith env client st user t).1.2 = none := by rw [h]
  have h1 := (becomeWith_of_success env client st user t hok).1
  rw [h] at h1
  simp only [becomeRequest, Option.some.injEq] at h1
  subst h1
  exact ⟨rfl, rfl, rfl⟩

/-- C6: a session returned by `Login`, `LoginFacebook` or `Become` on a client
holds the nil client, not the client the flow was invoked on: the three flows
build `sessionT` without setting `client`. Its `Create` and `Delete` therefore
call `create` and `_delete` on the nil client, and `NewQuery` and `NewUpdate`
build against the nil client. -/
theorem session_client_is_nil (env : Collaborators) (client : ParseClient) (flow : AuthFlow)
    (u : Iface) (t tr : Trace) (s : sessionT) (v : Iface) (t2 : Trace)
    (h : AuthFlow.run env client flow u t = (.ret (some s, none), tr)) :
    s.client = none ∧ s.client ≠ some client ∧
    sessionT.Create env s v t2 =
      (env.create none v false (some s) t2, s, t2 ++ [.create none v false (some s)]) ∧
    sessionT.Delete env s v t2 =
      (env.delete none v false (some s) t2, s, t2 ++ [.delete none v false (some s)]) ∧
    (sessionT.NewQuery env s v t2).2.2 = t2 ++ [.NewQuery v none] ∧
    (sessionT.NewUpdate env s v t2).2.2 = t2 ++ [.NewUpdate v none] := by
  have hc : s.client = none := by
    have hu : u = .nilInterface ∨ validateUser env u = none := by
      by_cases hn : u = .nilInterface
      · exact Or.inl hn
      · right
        cases hv : validateUser env u with
        | none => rfl
        | some err => simp [authFlow_run_of_invalid env client flow u t err hn hv] at h
    cases flow with
    | login f =>
      simp only [AuthFlow.run] at h
      rw [loginFlow_run_of_valid env client f u t hu] at h
      exact (loginWith_session env client f.request _ t tr s h).1
    | become st =>
      simp only [AuthFlow.run, Prod.mk.injEq, Outcome.ret.injEq] at h
      rw [Become_of_valid env client st u t hu] at h
      exact (becomeWith_session env client st _ t tr s (Prod.ext h.1 h.2)).1
  refine ⟨hc, by simp [hc], ?_, ?_, ?_, ?_⟩
  · simp [sessionT.Create, hc]
  · simp [sessionT.Delete, hc]
  · unfold sessionT.NewQuery
    split <;> simp [hc]
  · unfold sessionT.NewUpdate
    split <;> simp [hc]

theorem session_client_is_nil_witness :
    AuthFlow.run
        (sampleServer
          "\x7b\"sessionToken\":\"tok123\",\"username\":\"alice\",\"objectId\":\"u1\"\x7d" true)
        sampleClient (.login (.password "alice" "secret")) .nilInterface [] =
      (.ret (some { client := none, user := .newUser, sessionToken := "tok123" }, none),
        [.doRequest sampleClient (.login (passwordRequest "alice" "secret")),
          .populateValue .newUser
            (.object [("sessionToken", .string "tok123"), ("username", .string "alice"),
              ("objectId", .string "u1")])]) ∧
    (sessionT.mk none .newUser "tok123").client ≠ some sampleClient :=
  ⟨rfl,
    (session_client_is_nil
      (sampleServer
        "\x7b\"sessionToken\":\"tok123\",\"username\":\"alice\",\"objectId\":\"u1\"\x7d" true)
      sampleClient (.login (.password "alice" "secret")) .nilInterface []
      [.doRequest sampleClient (.login (passwordRequest "alice" "secret")),
        .populateValue .newUser
          (.object [("sessionToken", .string "tok123"), ("username", .string "alice"),
            ("objectId", .string "u1")])]
      { client := none, user := .newUser, sessionToken := "tok123" } .newUser [] rfl).2.1⟩

/-! ## The function-call request -/

/-- A valid destination makes `callFn` dispatch the request it built, as its
first collaborator call. -/
theorem callFn_trace (env : Collaborators) (client : ParseClient) (name : String)
    (params : Params) (resp : Iface) (sess : Option sessionT) (t : Trace)
    (hptr : resp.kindIsPtr = true) (hnil : resp.isNil = false) :
    ∃ rest : Trace, (callFn env client name params resp sess t).2 =
      t ++ .doRequest client (.callFn (callFnRequest name params sess)) :: rest := by
  simp only [callFn, hptr, hnil, Bool.not_true, Bool.or_self, Bool.false_eq_true, if_false]
  rcases hreq : env.doRequest client (.callFn (callFnRequest name params sess)) t with ⟨b, e⟩
  cases e with
  | some err => exact ⟨[], rfl⟩
  | none =>
    cases hdec : env.unmarshalFnResp b with
    | error err => exact ⟨[], by simp [hdec]⟩
    | ok result => exact ⟨[.populateValue resp result], by simp [hdec]⟩

/-- C7: the request built by `callFn` has method POST, content type
"application/json" and `useMasterKey` false; for a mapping `m` its body is
`json.Marshal` of `m`; when the caller passes the nil mapping the body is
`json.Marshal` of the empty mapping, the text `{}` and not `null`. It is the
request `callFn` dispatches once the destination is a non-nil pointer. -/
theorem callFn_request_shape (env : Collaborators) (client : ParseClient) (name : String)
    (params : Params) (m : List (String × Data)) (sess : Option sessionT) (resp : Iface)
    (t : Trace) (hptr : resp.kindIsPtr = true) (hnil : resp.isNil = false) :
    (callFnRequest name params sess).method = "POST" ∧
    (callFnRequest name params sess).contentType = "application/json" ∧
    (callFnRequest name params sess).useMasterKey = false ∧
    (callFnRequest name params sess).name = name ∧
    (callFnRequest name (some m) sess).body env = jsonMarshalParams env (some m) ∧
    (callFnRequest name none sess).body env = jsonMarshalParams env (some []) ∧
    (callFnRequest name none sess).body env = ("\x7b\x7d", none) ∧
    ((callFnRequest name none sess).body env).1 ≠ "null" ∧
    (∃ rest : Trace, (callFn env client name params resp sess t).2 =
      t ++ .doRequest client (.callFn (callFnRequest name params sess)) :: rest) := by
  have hbody : (callFnRequest name none sess).body env = ("\x7b\x7d", none) := rfl
  refine ⟨rfl, rfl, rfl, rfl, rfl, rfl, hbody, ?_,
    callFn_trace env client name params resp sess t hptr hnil⟩
  rw [hbody]
  decide

theorem callFn_request_shape_witness :
    (Iface.pointer "Result" 3).kindIsPtr = true ∧ (Iface.pointer "Result" 3).isNil = false ∧
    (callFnRequest "hello" none none).body (sampleServer "" true) = ("\x7b\x7d", none) ∧
    (callFnRequest "hello" (some [("b", .number "2"), ("a", .string "x")]) none).body
        (sampleServer "" true) =
      jsonMarshalParams (sampleServer "" true) (some [("b", .number "2"), ("a", .string "x")]) ∧
    jsonMarshalParams (sampleServer "" true) (some [("b", .number "2"), ("a", .string "x")]) =
      ("\x7b\"a\":\"x\",\"b\":2\x7d", none) :=
  ⟨rfl, rfl,
    (callFn_request_shape (sampleServer "" true) sampleClient "hello" none
      [("b", .number "2"), ("a", .string "x")] none (.pointer "Result" 3) [] rfl rfl).2.2.2.2.2.2.1,
    (callFn_request_shape (sampleServer "" true) sampleClient "hello" none
      [("b", .number "2"), ("a", .string "x")] none (.pointer "Result" 3) [] rfl rfl).2.2.2.2.1,
    by decide⟩

/-! ## Endpoints -/

theorem functions_segment_ne_empty (name : String) : ("functions/" ++ name == "") = false := by
  have h : "functions/" ++ name ≠ "" := by
    intro h
    have hl := congrArg String.length h
    simp only [String.length_append] at hl
    have h10 : ("functions/" : String).length = 10 := by decide
    have h0 : ("" : String).length = 0 := by decide
    omega
  simpa using h

/-- Joining the root with `functions` and the name is joining it with `functions/name`. -/
theorem pathJoin_functions (clean : String → String) (root name : String) :
    pathJoin clean [root, "functions", name] = pathJoin clean [root, "functions/" ++ name] := by
  have hlit : ("functions" : String) ++ "/" = "functions/" := by decide
  by_cases hr : root = ""
  · subst hr
    have h1 : (("" : String) == "") = true := by decide
    have h2 : (("functions" : String) == "") = false := by decide
    simp only [pathJoin, List.dropWhile, h1, h2, functions_segment_ne_empty]
    simp only [String.intercalate, String.intercalate.go]
    rw [hlit]
  · have h1 : (root == "") = false := by simpa using hr
    simp only [pathJoin, List.dropWhile, h1]
    simp only [String.intercalate, String.intercalate.go]
    rw [String.append_assoc, String.append_assoc, ← String.append_assoc "functions", hlit]

/-- C8: with the root being the mount point in hosted mode and the version
segment otherwise, the endpoint path of a function call is
`path.Join(root, "functions/" + name)`, and that of a login request is
`path.Join(root, suffix)` with suffix `users/me` when a session is bound,
`users` when auth data is present and no session is bound, and `login`
otherwise; so the requests of `Become`, `LoginFacebook` and `Login` get
`users/me`, `users` and `login`. Scheme and host are the client's in both
modes, and `endpoint` returns the rendering of that URL with no error. -/
theorem endpoint_path_rooted (env : Collaborators) (client : ParseClient) (c : callFnT)
    (r : loginRequestT) (st : String) (user : Iface) (authData : Option FacebookAuthData)
    (username password : String) :
    (c.endpointURL env client).Path =
      pathJoin env.pathClean [client.pathRoot, "functions/" ++ c.name] ∧
    (r.endpointURL env client).Path =
      pathJoin env.pathClean [client.pathRoot,
        if r.s.isSome then "users/me" else if r.authdata.isSome then "users" else "login"] ∧
    ((becomeRequest st user).endpointURL env client).Path =
      pathJoin env.pathClean [client.pathRoot, "users/me"] ∧
    ((facebookRequest authData).endpointURL env client).Path =
      pathJoin env.pathClean [client.pathRoot, "users"] ∧
    ((passwordRequest username password).endpointURL env client).Path =
      pathJoin env.pathClean [client.pathRoot, "login"] ∧
    (c.endpointURL env client).Scheme = client.parseScheme ∧
    (c.endpointURL env client).Host = client.parseHost ∧
    (r.endpointURL env client).Scheme = client.parseScheme ∧
    (r.endpointURL env client).Host = client.parseHost ∧
    c.endpoint env client = (env.urlString (c.endpointURL env client), none) ∧
    r.endpoint env client = (env.urlString (r.endpointURL env client), none) := by
  have hlogin : ∀ q : loginRequestT, (q.endpointURL env client).Path =
      pathJoin env.pathClean [client.pathRoot,
        if q.s.isSome then "users/me" else if q.authdata.isSome then "users" else "login"] := by
    intro q
    unfold loginRequestT.endpointURL ParseClient.pathRoot
    cases client.isHosted <;> cases q.s.isSome <;> cases q.authdata.isSome <;>
      cases (q.username != "" && q.password != "") <;> simp
  have hsh : ∀ q : loginRequestT, (q.endpointURL env client).Scheme = client.parseScheme ∧
      (q.endpointURL env client).Host = client.parseHost := by
    intro q
    unfold loginRequestT.endpointURL
    cases client.isHosted <;> cases q.s.isSome <;> cases q.authdata.isSome <;>
      cases (q.username != "" && q.password != "") <;> simp
  refine ⟨?_, hlogin r, ?_, ?_, ?_, ?_, ?_, (hsh r).1, (hsh r).2, rfl, rfl⟩
  · unfold callFnT.endpointURL ParseClient.pathRoot
    cases client.isHosted <;> simp [pathJoin_functions]
  · rw [hlogin]; rfl
  · rw [hlogin]; rfl
  · rw [hlogin]; rfl
  · unfold callFnT.endpointURL
    cases client.isHosted <;> simp
  · unfold callFnT.endpointURL
    cases client.isHosted <;> simp

/-! ## Credentials in the query string -/

/-- C9: the request built by `Login` is a GET with an empty body and no bound
session; the query of its endpoint URL is `url.Values.Encode` of exactly the
keys `username` and `password` with the given values when both are non-empty,
and empty when either is empty. The requests of `Become` and `LoginFacebook`
have an empty query. `Login` either fails validation without calling a
collaborator or dispatches that request first. -/
theorem login_credentials_in_query (env : Collaborators) (client : ParseClient)
    (username password : String) (st : String) (user : Iface)
    (authData : Option FacebookAuthData) (u : Iface) (t : Trace) :
    (passwordRequest username password).method = "GET" ∧
    (passwordRequest username password).body env = ("", none) ∧
    (passwordRequest username password).session = none ∧
    ((passwordRequest username password).endpointURL env client).RawQuery =
      (if username ≠ "" ∧ password ≠ "" then
        env.valuesEncode [("username", [username]), ("password", [password])]
      else "") ∧
    ((becomeRequest st user).endpointURL env client).RawQuery = "" ∧
    ((facebookRequest authData).endpointURL env client).RawQuery = "" ∧
    ((ParseClient.Login env client username password u t).2 = t ∨
      ∃ rest : Trace, (ParseClient.Login env client username password u t).2 =
        t ++ .doRequest client (.login (passwordRequest username password)) :: rest) := by
  refine ⟨rfl, rfl, rfl, ?_, ?_, ?_, ?_⟩
  · unfold loginRequestT.endpointURL passwordRequest
    by_cases h1 : username = "" <;> by_cases h2 : password = "" <;>
      cases client.isHosted <;> simp [h1, h2]
  · unfold loginRequestT.endpointURL becomeRequest
    cases client.isHosted <;> simp
  · unfold loginRequestT.endpointURL facebookRequest
    cases client.isHosted <;> simp
  · by_cases hn : u = .nilInterface
    · right
      subst hn
      simp only [ParseClient.Login, if_true]
      exact loginWith_trace env client _ _ t
    · cases hv : validateUser env u with
      | some err =>
        left
        simp [ParseClient.Login, hn, hv]
      | none =>
        right
        simp only [ParseClient.Login, hn, hv, if_false]
        exact loginWith_trace env client _ _ t

/-! ## Derived operations of a session -/

/-- C10, counterexample: when the package-level `NewQuery` hands back a
builder that is not a `*queryT`, `s.NewQuery` returns that builder with a nil
error and without `s` bound into it, so not every builder returned without
error has `s` as its current session. -/
theorem newQuery_other_builder_unbound :
    ∃ b : Query,
      (sessionT.NewQuery otherBuilderServer (sessionT.mk none .newUser "tok123")
        (.pointer "Widget" 7) []).1 = (some b, none) ∧
      b.currentSession ≠ some (sessionT.mk none .newUser "tok123") :=
  ⟨.other 5, rfl, by decide⟩

/-- What `s.NewQuery` returns, by what the package-level `NewQuery` returned. -/
theorem sessionT_NewQuery_result (env : Collaborators) (s : sessionT) (v : Iface) (t : Trace) :
    (∀ q0 : queryT, env.NewQuery v s.client t = (some (.queryT q0), none) →
      (sessionT.NewQuery env s v t).1 =
        (some (.queryT { q0 with currentSession := some s }), none)) ∧
    (∀ (q : Option Query) (e : Option GoError), env.NewQuery v s.client t = (q, e) →
      (∀ q0 : queryT, (q, e) ≠ (some (.queryT q0), none)) →
      (sessionT.NewQuery env s v t).1 = (q, e)) := by
  constructor
  · intro q0 hq0
    simp [sessionT.NewQuery, hq0]
  · intro q e hres hne
    rcases e with _ | err
    · rcases q with _ | b
      · simp [sessionT.NewQuery, hres]
      · cases b with
        | other i => simp [sessionT.NewQuery, hres]
        | queryT qt => exact absurd rfl (hne qt)
    · simp [sessionT.NewQuery, hres]

/-- What `s.NewUpdate` returns, by what the package-level `NewUpdate` returned. -/
theorem sessionT_NewUpdate_result (env : Collaborators) (s : sessionT) (v : Iface) (t : Trace) :
    (∀ u0 : updateT, env.NewUpdate v s.client t = (some (.updateT u0), none) →
      (sessionT.NewUpdate env s v t).1 =
        (some (.updateT { u0 with currentSession := some s }), none)) ∧
    (∀ (u : Option Update) (e : Option GoError), env.NewUpdate v s.client t = (u, e) →
      (∀ u0 : updateT, (u, e) ≠ (some (.updateT u0), none)) →
      (sessionT.NewUpdate env s v t).1 = (u, e)) := by
  constructor
  · intro u0 hu0
    simp [sessionT.NewUpdate, hu0]
  · intro u e hres hne
    rcases e with _ | err
    · rcases u with _ | b
      · simp [sessionT.NewUpdate, hres]
      · cases b with
        | other i => simp [sessionT.NewUpdate, hres]
        | updateT ut => exact absurd rfl (hne ut)
    · simp [sessionT.NewUpdate, hres]

/-- C10, amended: for a session `s`, the request dispatched by
`s.CallFunction` has `session()` equal to `s`; `s.Create` and `s.Delete`
call `create` and `_delete` with `useMasterKey` false and `s` as the session;
when the package-level `NewQuery` (`NewUpdate`) returns a `*queryT`
(`*updateT`) and no error, `s.NewQuery` (`s.NewUpdate`) returns that builder
with `s` as its current session, and every `*queryT` (`*updateT`) it returns
without error has `s` as its current session; any other result of the
package-level function (a builder of another type, a nil builder, an error)
is returned as it came, with nothing bound. The package-level `CallFunction`
dispatches a request whose `session()` is nil. When each of the five derived
operations returns, `*s` is the `s` it was called on, so its token and user
are unchanged. -/
theorem derived_operations_bind_session (env : Collaborators) (s : sessionT)
    (client : ParseClient) (name : String) (params : Params) (resp : Iface)
    (v : Iface) (t : Trace) (hptr : resp.kindIsPtr = true) (hnil : resp.isNil = false) :
    (∃ rest : Trace,
      (sessionT.CallFunction env s client name params resp t).2.2 =
        t ++ .doRequest client (.callFn (callFnRequest name params (some s))) :: rest) ∧
    (requestT.callFn (callFnRequest name params (some s))).session = some s ∧
    sessionT.Create env s v t =
      (env.create s.client v false (some s) t, s, t ++ [.create s.client v false (some s)]) ∧
    sessionT.Delete env s v t =
      (env.delete s.client v false (some s) t, s, t ++ [.delete s.client v false (some s)]) ∧
    (∀ q : queryT, (sessionT.NewQuery env s v t).1 = (some (.queryT q), none) →
      q.currentSession = some s) ∧
    (∀ q0 : queryT, env.NewQuery v s.client t = (some (.queryT q0), none) →
      (sessionT.NewQuery env s v t).1 =
        (some (.queryT { q0 with currentSession := some s }), none)) ∧
    (∀ (q : Option Query) (e : Option GoError), env.NewQuery v s.client t = (q, e) →
      (∀ q0 : queryT, (q, e) ≠ (some (.queryT q0), none)) →
      (sessionT.NewQuery env s v t).1 = (q, e)) ∧
    (∀ up : updateT, (sessionT.NewUpdate env s v t).1 = (some (.updateT up), none) →
      up.currentSession = some s) ∧
    (∀ u0 : updateT, env.NewUpdate v s.client t = (some (.updateT u0), none) →
      (sessionT.NewUpdate env s v t).1 =
        (some (.updateT { u0 with currentSession := some s }), none)) ∧
    (∀ (u : Option Update) (e : Option GoError), env.NewUpdate v s.client t = (u, e) →
      (∀ u0 : updateT, (u, e) ≠ (some (.updateT u0), none)) →
      (sessionT.NewUpdate env s v t).1 = (u, e)) ∧
    (∃ rest : Trace, (CallFunction env client name params resp t).2 =
      t ++ .doRequest client (.callFn (callFnRequest name params none)) :: rest) ∧
    (requestT.callFn (callFnRequest name params none)).session = none ∧
    ((sessionT.CallFunction env s client name params resp t).2.1 = s ∧
      (sessionT.Create env s v t).2.1 = s ∧ (sessionT.Delete env s v t).2.1 = s ∧
      (sessionT.NewQuery env s v t).2.1 = s ∧ (sessionT.NewUpdate env s v t).2.1 = s) ∧
    ((sessionT.CallFunction env s client name params resp t).2.1.sessionToken =
        s.sessionToken ∧
      (sessionT.CallFunction env s client name params resp t).2.1.user = s.user ∧
      (sessionT.Create env s v t).2.1.sessionToken = s.sessionToken ∧
      (sessionT.Create env s v t).2.1.user = s.user ∧
      (sessionT.Delete env s v t).2.1.sessionToken = s.sessionToken ∧
      (sessionT.Delete env s v t).2.1.user = s.user ∧
      (sessionT.NewQuery env s v t).2.1.sessionToken = s.sessionToken ∧
      (sessionT.NewQuery env s v t).2.1.user = s.user ∧
      (sessionT.NewUpdate env s v t).2.1.sessionToken = s.sessionToken ∧
      (sessionT.NewUpdate env s v t).2.1.user = s.user) := by
  have hq : (sessionT.NewQuery env s v t).2.1 = s := by
    unfold sessionT.NewQuery
    split <;> rfl
  have hu : (sessionT.NewUpdate env s v t).2.1 = s := by
    unfold sessionT.NewUpdate
    split <;> rfl
  refine ⟨callFn_trace env client name params resp (some s) t hptr hnil, rfl, rfl, rfl,
    ?_, (sessionT_NewQuery_result env s v t).1, (sessionT_NewQuery_result env s v t).2,
    ?_, (sessionT_NewUpdate_result env s v t).1, (sessionT_NewUpdate_result env s v t).2,
    callFn_trace env client name params resp none t hptr hnil, rfl,
    ⟨rfl, rfl, rfl, hq, hu⟩, ⟨rfl, rfl, rfl, rfl, rfl, rfl, ?_, ?_, ?_, ?_⟩⟩
  · intro q hq
    rcases hres : env.NewQuery v s.client t with ⟨q1, e1⟩
    cases e1 with
    | some err => simp [sessionT.NewQuery, hres] at hq
    | none =>
      cases q1 with
      | none => simp [sessionT.NewQuery, hres] at hq
      | some b =>
        cases b with
        | other i => simp [sessionT.NewQuery, hres] at hq
        | queryT qt =>
          simp only [sessionT.NewQuery, hres, Prod.mk.injEq, Option.some.injEq,
            Query.queryT.injEq, and_true] at hq
          rw [← hq]
  · intro up hup
    rcases hres : env.NewUpdate v s.client t with ⟨u1, e1⟩
    cases e1 with
    | some err => simp [sessionT.NewUpdate, hres] at hup
    | none =>
      cases u1 with
      | none => simp [sessionT.NewUpdate, hres] at hup
      | some b =>
        cases b with
        | other i => simp [sessionT.NewUpdate, hres] at hup
        | updateT ut =>
          simp only [sessionT.NewUpdate, hres, Prod.mk.injEq, Option.some.injEq,
            Update.updateT.injEq, and_true] at hup
          rw [← hup]
  · rw [hq]
  · rw [hq]
  · rw [hu]
  · rw [hu]

theorem derived_operations_bind_session_witness :
    (Iface.pointer "Result" 3).kindIsPtr = true ∧ (Iface.pointer "Result" 3).isNil = false ∧
    sessionT.CallFunction (sampleServer "\x7b\"result\":\"world\"\x7d" true)
        (sessionT.mk none .newUser "tok123") sampleClient "hello" none (.pointer "Result" 3)
        [] =
      (none, sessionT.mk none .newUser "tok123",
        [.doRequest sampleClient
            (.callFn (callFnRequest "hello" none (some (sessionT.mk none .newUser "tok123")))),
          .populateValue (.pointer "Result" 3) (.string "world")]) ∧
    (sessionT.NewQuery (sampleServer "\x7b\"result\":\"world\"\x7d" true)
        (sessionT.mk none .newUser "tok123") (.pointer "Widget" 7) []).1 =
      (some (.queryT (queryT.mk 0 (some (sessionT.mk none .newUser "tok123")))), none) ∧
    (queryT.mk 0 (some (sessionT.mk none .newUser "tok123"))).currentSession =
      some (sessionT.mk none .newUser "tok123") ∧
    (sessionT.NewQuery otherBuilderServer (sessionT.mk none .newUser "tok123")
        (.pointer "Widget" 7) []).1 = (some (.other 5), none) :=
  ⟨rfl, rfl, rfl, rfl,
    (derived_operations_bind_session (sampleServer "\x7b\"result\":\"world\"\x7d" true)
      (sessionT.mk none .newUser "tok123") sampleClient "hello" none (.pointer "Result" 3)
      (.pointer "Widget" 7) [] rfl rfl).2.2.2.2.1
      (queryT.mk 0 (some (sessionT.mk none .newUser "tok123"))) rfl,
    (derived_operations_bind_session otherBuilderServer
      (sessionT.mk none .newUser "tok123") sampleClient "hello" none (.pointer "Result" 3)
      (.pointer "Widget" 7) [] rfl rfl).2.2.2.2.2.2.1 (some (.other 5)) none rfl
      (fun q0 h => by simp at h)⟩

end Parse
